import Mathlib

/-!
Shallow embedding of the queue-to-publish scheduler in src/post_queue.py.

Conventions of the embedding:
* Spreadsheet cells are Lean `String`s; a loaded data row is a `QueueRow`
  (the dict built by read_queue_rows).
* Python `str.strip()` is embedded as `pyStrip` (whitespace removal on both
  ends, over the character list, ASCII whitespace).
* `datetime.strptime(s, "%Y-%m-%d %H:%M")` is embedded as `parse_scheduled_at`,
  returning `Option Nat`: `none` models the ValueError, `some k` returns a
  numeric key `dateKey y m d h mi` that is strictly monotone in the
  lexicographic order on (year, month, day, hour, minute), so comparison of
  keys coincides with comparison of the corresponding JST datetimes.
* The remote X API and the filesystem are oracles packaged in `Env`; each
  outgoing HTTP request of the publisher is recorded as a `RemoteCall`.
* Sheet writes performed through update_row_full are recorded as
  `(row_index, seven cell values)` pairs, never executed.
* `int(os.getenv("MAX_POSTS_PER_RUN", "1"))` is embedded as
  `effectiveMaxPosts`: the optional environment value, already parsed, with
  the default literal "1" parsed to 1.
-/

/-- One loaded data row, as built by read_queue_rows after right-padding a
short sheet row with empty strings: the seven named cells plus the 1-based
sheet position (row_index, header row included in the numbering). -/
structure QueueRow where
  row_index : Nat
  scheduled_at : String
  text : String
  media_path : String
  status : String
  posted_at : String
  tweet_id : String
  error_message : String
deriving DecidableEq, Repr

/-- The fixed header row expected in cells A1:G1 (HEADERS in post_queue.py). -/
def HEADERS : List String :=
  ["scheduled_at", "text", "media_path", "status", "posted_at", "tweet_id", "error_message"]

/-- MAX_TWEET_LEN in post_queue.py. -/
def MAX_TWEET_LEN : Nat := 280

/-- Embedding of Python str.strip(): drop whitespace from both ends. -/
def pyStrip (s : String) : String :=
  String.mk (((s.toList.dropWhile Char.isWhitespace).reverse.dropWhile Char.isWhitespace).reverse)

/-- Numeric value of a decimal digit character. -/
def digitVal (c : Char) : Nat := c.toNat - 48

/-- Read exactly four decimal digits (the strptime %Y field). -/
def read4Digits : List Char → Option (Nat × List Char)
  | c1 :: c2 :: c3 :: c4 :: rest =>
    if c1.isDigit && c2.isDigit && c3.isDigit && c4.isDigit then
      some ((((digitVal c1) * 10 + digitVal c2) * 10 + digitVal c3) * 10 + digitVal c4, rest)
    else none
  | _ => none

/-- Read one or two decimal digits, greedily (the strptime %m, %d, %H, %M
fields; the two-digit alternative of the pattern is tried first, and since
every following literal in this format is a non-digit, no backtracking to the
one-digit alternative can ever succeed after two digits matched). -/
def readNum2 : List Char → Option (Nat × List Char)
  | c1 :: c2 :: rest =>
    if c1.isDigit then
      if c2.isDigit then some ((digitVal c1) * 10 + digitVal c2, rest)
      else some (digitVal c1, c2 :: rest)
    else none
  | [c1] => if c1.isDigit then some (digitVal c1, []) else none
  | [] => none

/-- Require a literal character next. -/
def expectChar (c : Char) : List Char → Option (List Char)
  | c1 :: rest => if c1 = c then some rest else none
  | [] => none

/-- Require at least one whitespace character, then swallow the whole run
(a literal blank in a strptime format matches one-or-more whitespace). -/
def expectWs : List Char → Option (List Char)
  | c1 :: rest => if c1.isWhitespace then some (rest.dropWhile Char.isWhitespace) else none
  | [] => none

/-- Gregorian leap-year test, as used by Python's datetime validation. -/
def isLeap (y : Nat) : Bool := (y % 4 == 0 && y % 100 != 0) || y % 400 == 0

/-- Days in a month, as used by Python's datetime validation. -/
def daysInMonth (y m : Nat) : Nat :=
  if m == 2 then (if isLeap y then 29 else 28)
  else if m == 4 || m == 6 || m == 9 || m == 11 then 30
  else 31

/-- Order-preserving numeric key for a JST wall-clock minute: strictly
monotone in lexicographic (y, m, d, h, mi) because m ≤ 12 < 13, d ≤ 31 < 32,
h < 24 and mi < 60 on every value this file produces. -/
def dateKey (y m d h mi : Nat) : Nat := (((y * 13 + m) * 32 + d) * 24 + h) * 60 + mi

/-- Embedding of parse_scheduled_at: strip the cell, match the strptime
pattern "%Y-%m-%d %H:%M" against the whole string, then apply the range
checks the pattern and the datetime constructor perform.  Returns the
dateKey of the parsed JST minute, or none for the ValueError. -/
def parse_scheduled_at (s : String) : Option Nat := do
  let cs := (pyStrip s).toList
  let (y, r1) ← read4Digits cs
  let r2 ← expectChar '-' r1
  let (m, r3) ← readNum2 r2
  let r4 ← expectChar '-' r3
  let (d, r5) ← readNum2 r4
  let r6 ← expectWs r5
  let (h, r7) ← readNum2 r6
  let r8 ← expectChar ':' r7
  let (mi, r9) ← readNum2 r8
  guard (r9 = [])
  guard (1 ≤ m && m ≤ 12 && 1 ≤ d && d ≤ 31 && h ≤ 23 && mi ≤ 59)
  guard (1 ≤ y && d ≤ daysInMonth y m)
  pure (dateKey y m d h mi)

/-- The four row-filter checks of the selection loop in run(): scheduled_at
non-blank, tweet_id blank, status exactly PENDING or READY, text non-blank. -/
def passesFilter (r : QueueRow) : Bool :=
  pyStrip r.scheduled_at != "" && pyStrip r.tweet_id == "" &&
    (r.status == "PENDING" || r.status == "READY") && pyStrip r.text != ""

/-- The seven-cell write-back used on a scheduled_at parse failure. -/
def invalidScheduledRow (r : QueueRow) : List String :=
  [r.scheduled_at, r.text, r.media_path, "ERROR", r.posted_at, r.tweet_id,
    "invalid scheduled_at"]

/-- The candidate-selection loop of run(): walk the loaded rows in sheet
order; rows failing the filter are skipped, rows whose scheduled_at fails to
parse produce an immediate ERROR write-back, rows parsed to a time ≤ now
become candidates (paired with their parsed key), later rows are untouched.
Returns (parse-error writes, candidates), each in sheet order. -/
def selectCandidates (now : Nat) : List QueueRow → List (Nat × List String) × List (Nat × QueueRow)
  | [] => ([], [])
  | r :: rs =>
    if passesFilter r = true then
      match parse_scheduled_at r.scheduled_at with
      | none =>
        ((r.row_index, invalidScheduledRow r) :: (selectCandidates now rs).1,
          (selectCandidates now rs).2)
      | some k =>
        if k ≤ now then
          ((selectCandidates now rs).1, (k, r) :: (selectCandidates now rs).2)
        else selectCandidates now rs
    else selectCandidates now rs

/-- Stable insertion into a key-sorted list: the new element goes before the
first element whose key is not smaller, so elements with equal keys keep
their original relative order. -/
def insertByKey (x : Nat × QueueRow) : List (Nat × QueueRow) → List (Nat × QueueRow)
  | [] => [x]
  | y :: ys => if y.1 < x.1 then y :: insertByKey x ys else x :: y :: ys

/-- Embedding of candidates.sort(key=lambda x: x[0]): a stable ascending
sort on the parsed scheduled-time key (Python's list.sort is stable). -/
def sortByKey : List (Nat × QueueRow) → List (Nat × QueueRow)
  | [] => []
  | x :: xs => insertByKey x (sortByKey xs)

/-- Embedding of the Python slice l[:k] for an int k: a non-negative k keeps
the first k elements; a negative k keeps max(len(l) + k, 0) elements,
i.e. removes |k| elements from the end. -/
def pySliceTo (k : Int) (l : List (Nat × QueueRow)) : List (Nat × QueueRow) :=
  if 0 ≤ k then l.take k.toNat else l.take (l.length - (-k).toNat)

/-- Embedding of int(os.getenv("MAX_POSTS_PER_RUN", "1")): the configured
value when the variable is set (already parsed to an integer), else the
default literal "1", which parses to 1. -/
def effectiveMaxPosts (envVar : Option Int) : Int :=
  match envVar with
  | some v => v
  | none => 1

/-- One outgoing HTTP request to the X API. -/
inductive RemoteCall where
  | upload (media_path : String)
  | post (text : String) (media_in_payload : Option String)
deriving DecidableEq, Repr

/-- Response of the media-upload endpoint, as the code consumes it:
the HTTP status, the two JSON fields probed by upload_media (media_id as the
Python str() of the value when the key is present), and the textual body used
in error messages. -/
structure UploadResp where
  status : Nat
  media_id_string : Option String
  media_id : Option String
  body : String

/-- Response of the tweet endpoint, as the code consumes it: the HTTP
status, the value at the data.id path when present, and the textual body
used in error messages. -/
structure PostResp where
  status : Nat
  data_id : Option String
  body : String

/-- External world of one run: the current JST time as a dateKey, the string
now_jst_str() renders (current JST time, "%Y-%m-%d %H:%M", minute
precision), the filesystem check behind Path.is_file, and the two HTTP
endpoints as response oracles keyed by request content. -/
structure Env where
  now : Nat
  nowStr : String
  fileExists : String → Bool
  uploadResp : String → UploadResp
  postResp : String → Option String → PostResp

/-- Embedding of upload_media: missing file raises before any HTTP request;
otherwise one upload request is made; status ≥ 400 raises; otherwise the
media id is js.get("media_id_string") or str(js.get("media_id")) — note that
str(None) is the four-character string "None" — and only a falsy (empty)
result raises the missing-id error. -/
def upload_media (env : Env) (media_path : String) : Except String String × List RemoteCall :=
  if env.fileExists media_path = false then
    (Except.error s!"media_path not found: {media_path}", [])
  else
    let resp := env.uploadResp media_path
    let st := resp.status
    let bd := resp.body
    if 400 ≤ st then
      (Except.error s!"media upload failed: {st} {bd}", [RemoteCall.upload media_path])
    else
      let fallback := match resp.media_id with
        | some v => v
        | none => "None"
      let media_id := match resp.media_id_string with
        | some s => if s = "" then fallback else s
        | none => fallback
      if media_id = "" then
        (Except.error s!"media upload ok but media_id missing: {bd}", [RemoteCall.upload media_path])
      else
        (Except.ok media_id, [RemoteCall.upload media_path])

/-- Embedding of post_to_x: the payload carries the media id only when it is
truthy; one post request is made; status ≥ 400 raises; a missing or falsy
data.id raises; otherwise the (necessarily non-empty) id is returned. -/
def post_to_x (env : Env) (text : String) (media_id : Option String) :
    Except String String × List RemoteCall :=
  let payloadMedia := match media_id with
    | some m => if m = "" then none else some m
    | none => none
  let resp := env.postResp text payloadMedia
  let st := resp.status
  let bd := resp.body
  let call := [RemoteCall.post text payloadMedia]
  if 400 ≤ st then
    (Except.error s!"tweet post failed: {st} {bd}", call)
  else
    match resp.data_id with
    | none => (Except.error s!"tweet posted but id missing: {bd}", call)
    | some t =>
      if t = "" then (Except.error s!"tweet posted but id missing: {bd}", call)
      else (Except.ok t, call)

/-- The text of the ValueError raised for an oversized tweet. -/
def tooLongMsg (n : Nat) : String := s!"text too long: {n} (limit {MAX_TWEET_LEN})"

/-- The body of the per-candidate try block in run(), up to the outcome: the
local length check, the optional media upload, then the publish call.
Returns the tweet id or the exception text, plus the HTTP requests made. -/
def candidateOutcome (env : Env) (r : QueueRow) : Except String String × List RemoteCall :=
  let text := r.text
  let n := text.length
  if MAX_TWEET_LEN < n then
    (Except.error (tooLongMsg n), [])
  else
    let media_path := pyStrip r.media_path
    if media_path = "" then post_to_x env text none
    else
      match upload_media env media_path with
      | (Except.error e, calls) => (Except.error e, calls)
      | (Except.ok mid, calls) =>
        ((post_to_x env text (some mid)).1, calls ++ (post_to_x env text (some mid)).2)

/-- Result of processing one candidate: the full-row write-back
(row_index plus seven cells), the HTTP requests made, the stdout line, and
whether the posted counter was incremented. -/
structure CandResult where
  write : Nat × List String
  calls : List RemoteCall
  line : String
  ok : Bool
deriving Repr

/-- The stdout line printed after a successful post. -/
def postedLine (i : Nat) (tid : String) : String := s!"POSTED row={i} tweet_id={tid}"

/-- The stdout line printed after a per-candidate failure. -/
def errorLine (i : Nat) (msg : String) : String := s!"ERROR row={i} err={msg}"

/-- Processing of one candidate in run(): on success write back
[scheduled_at, text, media_path, POSTED, now_jst_str(), tweet id, ""] and
print the POSTED line; on any exception write back the originally read
cells with status ERROR and the exception text truncated to 500 characters,
and print the ERROR line. -/
def processCandidate (env : Env) (r : QueueRow) : CandResult :=
  let i := r.row_index
  match candidateOutcome env r with
  | (Except.ok tid, calls) =>
    { write := (i, [r.scheduled_at, r.text, r.media_path, "POSTED", env.nowStr, tid, ""])
      calls := calls
      line := postedLine i tid
      ok := true }
  | (Except.error e, calls) =>
    let msg := e.take 500
    { write := (i, [r.scheduled_at, r.text, r.media_path, "ERROR", r.posted_at, r.tweet_id, msg])
      calls := calls
      line := errorLine i msg
      ok := false }

/-- Observable effects of the selection and publish phases of one run():
parse-error write-backs from selection, write-backs from the publish loop,
HTTP requests in order, stdout lines of the publish loop, and the posted
counter.  (The trailing "No posts to send now." summary line is not
recorded.) -/
structure RunResult where
  selWrites : List (Nat × List String)
  pubWrites : List (Nat × List String)
  calls : List RemoteCall
  output : List String
  posted : Nat

/-- The core of run() after the sheet is read: select candidates against
the current time, sort them by parsed time (stable), truncate with the
Python slice [:max_posts_per_run], and process each survivor in order,
each one independently producing a write-back. -/
def runModel (env : Env) (maxPosts : Int) (rows : List QueueRow) : RunResult :=
  let sel := selectCandidates env.now rows
  let attempted := pySliceTo maxPosts (sortByKey sel.2)
  let results := attempted.map (fun c => processCandidate env c.2)
  { selWrites := sel.1
    pubWrites := results.map (fun res => res.write)
    calls := (results.map (fun res => res.calls)).flatten
    output := results.map (fun res => res.line)
    posted := (results.filter (fun res => res.ok)).length }

/-- Textual rendering of values[0] in the header-mismatch message
(str(None) when the range came back empty). -/
def headerGot (hdr : Option (List String)) : String :=
  match hdr with
  | none => "None"
  | some h => toString h

/-- The header-mismatch message of ensure_header, naming expected and got. -/
def mismatchMsg (hdr : Option (List String)) : String :=
  let exp := toString HEADERS
  let got := headerGot hdr
  s!"Header mismatch.\nExpected: {exp}\nGot: {got}"

/-- Embedding of ensure_header: the A1:G1 range yields no header row
(`none`) or one row of cells; anything other than exactly HEADERS raises
the mismatch error. -/
def ensure_header (hdr : Option (List String)) : Except String Unit :=
  match hdr with
  | some h => if h = HEADERS then Except.ok () else Except.error (mismatchMsg (some h))
  | none => Except.error (mismatchMsg none)

/-- run() from the schema guard onward: ensure_header runs first and a
mismatch aborts the whole run before any row is loaded or processed. -/
def runFull (env : Env) (maxPosts : Int) (hdr : Option (List String))
    (rows : List QueueRow) : Except String RunResult :=
  match ensure_header hdr with
  | Except.error e => Except.error e
  | Except.ok _ => Except.ok (runModel env maxPosts rows)

/-! Concrete fixtures used by witnesses and counterexamples. -/

/-- A current time later than every four-digit-year dateKey. -/
def bigNow : Nat := 10000000000

/-- A minimal due, eligible PENDING row at sheet position 2. -/
def rowPending : QueueRow :=
  { row_index := 2, scheduled_at := "2024-01-01 09:00", text := "hello",
    media_path := "", status := "PENDING", posted_at := "", tweet_id := "",
    error_message := "" }

/-- A due, eligible row whose tweet_id cell holds a single blank. -/
def rowWsTweetId : QueueRow := { rowPending with tweet_id := " " }

/-- A due row with blanks around scheduled_at and text and a blank tweet_id. -/
def rowWsFields : QueueRow :=
  { rowPending with scheduled_at := " 2024-01-01 09:00 ", text := " hi ", tweet_id := " " }

/-- A due row whose status is lower-case pending. -/
def rowLowerStatus : QueueRow := { rowPending with status := "pending" }

/-- A due row whose status carries a leading blank. -/
def rowPaddedStatus : QueueRow := { rowPending with status := " PENDING" }

/-- A row whose scheduled_at does not parse. -/
def rowBadSched : QueueRow := { rowPending with scheduled_at := "2024-13-40 99:99" }

/-- A due, eligible row whose text is 281 characters long. -/
def rowLongText : QueueRow := { rowPending with text := String.mk (List.replicate 281 'x') }

/-- A due, eligible row with an attached media file. -/
def rowWithMedia : QueueRow := { rowPending with media_path := "pic.jpg" }

/-- A later due, eligible row at sheet position 3, scheduled 09:30. -/
def row0930 : QueueRow :=
  { rowPending with row_index := 3, scheduled_at := "2024-01-01 09:30" }

/-- A still later due, eligible row at sheet position 4, scheduled 10:00. -/
def row1000 : QueueRow :=
  { rowPending with row_index := 4, scheduled_at := "2024-01-01 10:00" }

/-- The 6-column header layout the spec describes as a second schema
variant: HEADERS without media_path. -/
def HEADERS6 : List String :=
  ["scheduled_at", "text", "status", "posted_at", "tweet_id", "error_message"]

/-- An environment in which every remote call succeeds: the upload yields
media_id_string m1 and the post yields id 42. -/
def envOk : Env :=
  { now := bigNow, nowStr := "2024-06-01 12:00",
    fileExists := fun _ => true,
    uploadResp := fun _ =>
      { status := 200, media_id_string := some "m1", media_id := none, body := "" },
    postResp := fun _ _ => { status := 200, data_id := some "42", body := "" } }

/-- An environment whose tweet endpoint answers HTTP 500 with body boom. -/
def envFail500 : Env :=
  { envOk with postResp := fun _ _ => { status := 500, data_id := none, body := "boom" } }

/-- An environment whose upload endpoint answers HTTP 200 with a JSON body
holding neither media_id_string nor media_id. -/
def envMissingId : Env :=
  { envOk with uploadResp := fun _ =>
      { status := 200, media_id_string := none, media_id := none, body := "\x7b\x7d" } }

/-! Helper lemmas about the stable sort. -/

lemma mem_insertByKey {x a : Nat × QueueRow} {l : List (Nat × QueueRow)}
    (h : a ∈ insertByKey x l) : a = x ∨ a ∈ l := by
  induction l with
  | nil => simpa [insertByKey] using h
  | cons y ys ih =>
    by_cases hc : y.1 < x.1
    · simp only [insertByKey, if_pos hc, List.mem_cons] at h
      rcases h with h | h
      · right; simp [h]
      · rcases ih h with h | h
        · left; exact h
        · right; simp [h]
    · simp only [insertByKey, if_neg hc, List.mem_cons] at h
      rcases h with h | h
      · left; exact h
      · right; simpa using h

lemma pairwise_insertByKey (x : Nat × QueueRow) (l : List (Nat × QueueRow))
    (h : l.Pairwise (fun a b => a.1 ≤ b.1)) :
    (insertByKey x l).Pairwise (fun a b => a.1 ≤ b.1) := by
  induction l with
  | nil => simp [insertByKey]
  | cons y ys ih =>
    rcases List.pairwise_cons.mp h with ⟨hy, hys⟩
    by_cases hc : y.1 < x.1
    · simp only [insertByKey, if_pos hc]
      refine List.pairwise_cons.mpr ⟨?_, ih hys⟩
      intro a ha
      rcases mem_insertByKey ha with rfl | ha
      · omega
      · exact hy a ha
    · simp only [insertByKey, if_neg hc]
      refine List.pairwise_cons.mpr ⟨?_, h⟩
      intro a ha
      rcases List.mem_cons.mp ha with rfl | ha
      · omega
      · have := hy a ha; omega

lemma sortByKey_pairwise (l : List (Nat × QueueRow)) :
    (sortByKey l).Pairwise (fun a b => a.1 ≤ b.1) := by
  induction l with
  | nil => simp [sortByKey]
  | cons x xs ih => exact pairwise_insertByKey x (sortByKey xs) ih

lemma filter_insertByKey (x : Nat × QueueRow) (l : List (Nat × QueueRow)) (k : Nat) :
    (insertByKey x l).filter (fun p => p.1 == k) =
      (if x.1 == k then [x] else []) ++ l.filter (fun p => p.1 == k) := by
  induction l with
  | nil => by_cases hx : (x.1 == k) = true <;> simp [insertByKey, hx]
  | cons y ys ih =>
    by_cases hc : y.1 < x.1
    · have hstep : insertByKey x (y :: ys) = y :: insertByKey x ys := by
        simp [insertByKey, hc]
      rw [hstep, List.filter_cons, ih, List.filter_cons]
      by_cases hy : (y.1 == k) = true
      · have hyk : y.1 = k := by simpa using hy
        have hx : (x.1 == k) = false := by
          simp only [beq_eq_false_iff_ne, ne_eq]
          omega
        simp [hy, hx]
      · have hy2 : (y.1 == k) = false := by simpa using hy
        simp [hy2]
    · have hstep : insertByKey x (y :: ys) = x :: y :: ys := by
        simp [insertByKey, hc]
      rw [hstep, List.filter_cons]
      by_cases hx : (x.1 == k) = true <;> simp [hx]

lemma sortByKey_filter (l : List (Nat × QueueRow)) (k : Nat) :
    (sortByKey l).filter (fun p => p.1 == k) = l.filter (fun p => p.1 == k) := by
  induction l with
  | nil => rfl
  | cons x xs ih =>
    rw [sortByKey, filter_insertByKey, ih, List.filter_cons]
    by_cases hx : (x.1 == k) = true <;> simp [hx]

/-! Helper lemmas about candidate selection. -/

lemma cand_mem_iff (now k : Nat) (r : QueueRow) (rows : List QueueRow) :
    (k, r) ∈ (selectCandidates now rows).2 ↔
      (r ∈ rows ∧ passesFilter r = true ∧
        parse_scheduled_at r.scheduled_at = some k ∧ k ≤ now) := by
  induction rows with
  | nil => simp [selectCandidates]
  | cons r2 rs ih =>
    by_cases hf : passesFilter r2 = true
    · cases hp : parse_scheduled_at r2.scheduled_at with
      | none =>
        simp only [selectCandidates, if_pos hf, hp, List.mem_cons, ih]
        constructor
        · intro h
          exact ⟨Or.inr h.1, h.2⟩
        · rintro ⟨hr | hr, hrest⟩
          · subst hr
            rw [hp] at hrest
            exact absurd hrest.2.1 (by simp)
          · exact ⟨hr, hrest⟩
      | some k2 =>
        by_cases hn : k2 ≤ now
        · simp only [selectCandidates, if_pos hf, hp, if_pos hn, List.mem_cons, ih]
          constructor
          · rintro (hpair | h)
            · have hk : k = k2 := by
                have := congrArg Prod.fst hpair
                simpa using this
              have hr : r = r2 := by
                have := congrArg Prod.snd hpair
                simpa using this
              subst hk; subst hr
              exact ⟨Or.inl rfl, hf, hp, hn⟩
            · exact ⟨Or.inr h.1, h.2⟩
          · rintro ⟨hr | hr, hfil, hparse, hle⟩
            · subst hr
              rw [hp] at hparse
              have hk : k = k2 := by
                have := Option.some.inj hparse
                omega
              subst hk
              exact Or.inl rfl
            · exact Or.inr ⟨hr, hfil, hparse, hle⟩
        · simp only [selectCandidates, if_pos hf, hp, if_neg hn, List.mem_cons, ih]
          constructor
          · intro h
            exact ⟨Or.inr h.1, h.2⟩
          · rintro ⟨hr | hr, hfil, hparse, hle⟩
            · subst hr
              rw [hp] at hparse
              have hk : k = k2 := by
                have := Option.some.inj hparse
                omega
              subst hk
              exact absurd hle hn
            · exact ⟨hr, hfil, hparse, hle⟩
    · simp only [selectCandidates, if_neg hf, List.mem_cons, ih]
      constructor
      · intro h
        exact ⟨Or.inr h.1, h.2⟩
      · rintro ⟨hr | hr, hfil, hrest⟩
        · subst hr
          exact absurd hfil hf
        · exact ⟨hr, hfil, hrest⟩

lemma selwrite_mem (now : Nat) (r : QueueRow) (rows : List QueueRow)
    (hmem : r ∈ rows) (hf : passesFilter r = true)
    (hp : parse_scheduled_at r.scheduled_at = none) :
    (r.row_index, invalidScheduledRow r) ∈ (selectCandidates now rows).1 := by
  induction rows with
  | nil => cases hmem
  | cons r2 rs ih =>
    rcases List.mem_cons.mp hmem with hr | hr
    · subst hr
      simp [selectCandidates, hf, hp]
    · by_cases hf2 : passesFilter r2 = true
      · cases hp2 : parse_scheduled_at r2.scheduled_at with
        | none => simp only [selectCandidates, if_pos hf2, hp2, List.mem_cons]
                  exact Or.inr (ih hr)
        | some k2 =>
          by_cases hn : k2 ≤ now
          · simpa only [selectCandidates, if_pos hf2, hp2, if_pos hn] using ih hr
          · simpa only [selectCandidates, if_pos hf2, hp2, if_neg hn] using ih hr
      · simpa only [selectCandidates, if_neg hf2] using ih hr

lemma cands_sublist (now : Nat) (rows : List QueueRow) :
    List.Sublist ((selectCandidates now rows).2.map Prod.snd) rows := by
  induction rows with
  | nil => simp [selectCandidates]
  | cons r rs ih =>
    by_cases hf : passesFilter r = true
    · cases hp : parse_scheduled_at r.scheduled_at with
      | none =>
        simp only [selectCandidates, if_pos hf, hp]
        exact ih.cons r
      | some k =>
        by_cases hn : k ≤ now
        · simp only [selectCandidates, if_pos hf, hp, if_pos hn, List.map_cons]
          exact ih.cons₂ r
        · simp only [selectCandidates, if_pos hf, hp, if_neg hn]
          exact ih.cons r
    · simp only [selectCandidates, if_neg hf]
      exact ih.cons r

lemma pyStrip_of_eq_empty {s : String} (h : s = "") : pyStrip s = "" := by
  subst h; rfl

lemma parse_pyStrip_ne {s : String} {k : Nat}
    (h : parse_scheduled_at s = some k) : pyStrip s ≠ "" := by
  intro he
  rw [parse_scheduled_at] at h
  rw [he] at h
  simp [read4Digits] at h

lemma passesFilter_iff (r : QueueRow) :
    passesFilter r = true ↔
      (pyStrip r.scheduled_at ≠ "" ∧ pyStrip r.tweet_id = "" ∧
        (r.status = "PENDING" ∨ r.status = "READY") ∧ pyStrip r.text ≠ "") := by
  simp [passesFilter, and_assoc]

lemma post_to_x_fst_ok_ne {env : Env} {text : String} {mid : Option String} {tid : String}
    (h : (post_to_x env text mid).1 = Except.ok tid) : tid ≠ "" := by
  rw [post_to_x.eq_def] at h
  dsimp only at h
  split at h
  · cases h
  · split at h
    · cases h
    · split at h
      · cases h
      · rename_i ht
        simp only [Except.ok.injEq] at h
        simp_all

lemma candidateOutcome_ok_ne {env : Env} {r : QueueRow} {tid : String}
    {calls : List RemoteCall} (h : candidateOutcome env r = (Except.ok tid, calls)) :
    tid ≠ "" := by
  rw [candidateOutcome] at h
  dsimp only at h
  split at h
  · cases h
  · split at h
    · exact post_to_x_fst_ok_ne (congrArg Prod.fst h)
    · split at h
      · cases h
      · exact post_to_x_fst_ok_ne (congrArg Prod.fst h)

/-! The claims. -/

/-- C1, corrected: a row whose tweet_id cell consists only of whitespace is
non-empty yet is still selected as a publish candidate, because the selector
tests the stripped tweet_id — refuting the claim that every row with a
non-empty tweet_id is excluded. -/
theorem c1_counterexample_whitespace_tweet_id :
    rowWsTweetId.tweet_id ≠ "" ∧
      ((selectCandidates bigNow [rowWsTweetId]).2).map Prod.snd = [rowWsTweetId] := by
  exact ⟨by decide, by decide⟩

/-- C1, amended: a loaded row is selected as a publish candidate iff its
scheduled_at is non-empty, its tweet_id is empty after stripping whitespace,
its status is exactly PENDING or READY, its text is non-empty after
stripping, its scheduled_at parses in the fixed format, and the parsed
JST time is at most the current time; and every row whose stripped tweet_id
is non-empty is never selected, regardless of its other fields. -/
theorem c1_selection_characterization (now : Nat) (rows : List QueueRow) (r : QueueRow)
    (hmem : r ∈ rows) :
    ((∃ k, (k, r) ∈ (selectCandidates now rows).2) ↔
      (r.scheduled_at ≠ "" ∧ pyStrip r.tweet_id = "" ∧
        (r.status = "PENDING" ∨ r.status = "READY") ∧ pyStrip r.text ≠ "" ∧
        ∃ k, parse_scheduled_at r.scheduled_at = some k ∧ k ≤ now)) ∧
    (pyStrip r.tweet_id ≠ "" → ∀ k, (k, r) ∉ (selectCandidates now rows).2) := by
  constructor
  · constructor
    · rintro ⟨k, hk⟩
      rcases (cand_mem_iff now k r rows).mp hk with ⟨-, hfil, hparse, hle⟩
      rcases (passesFilter_iff r).mp hfil with ⟨hsched, htid, hstat, htext⟩
      refine ⟨?_, htid, hstat, htext, k, hparse, hle⟩
      intro he
      exact hsched (pyStrip_of_eq_empty he)
    · rintro ⟨hsched, htid, hstat, htext, k, hparse, hle⟩
      refine ⟨k, (cand_mem_iff now k r rows).mpr ⟨hmem, ?_, hparse, hle⟩⟩
      exact (passesFilter_iff r).mpr ⟨parse_pyStrip_ne hparse, htid, hstat, htext⟩
  · intro htid k hk
    rcases (cand_mem_iff now k r rows).mp hk with ⟨-, hfil, -, -⟩
    exact htid ((passesFilter_iff r).mp hfil).2.1

/-- Witness for C1: the minimal due PENDING row is indeed selected, through
the amended characterization. -/
theorem c1_selection_characterization_witness :
    ∃ k, (k, rowPending) ∈ (selectCandidates bigNow [rowPending]).2 :=
  ((c1_selection_characterization bigNow [rowPending] rowPending (by decide)).1).mpr
    ⟨by decide, by decide, Or.inl (by decide), by decide,
      dateKey 2024 1 1 9 0, by decide, by decide⟩

/-- C5, confirmed: a row that passes the field filter but whose scheduled_at
does not parse is written back with status ERROR and error_message
"invalid scheduled_at", every other cell exactly as read, and is excluded
from the candidate set, so no publish attempt is made for it. -/
theorem c5_invalid_scheduled_at (now : Nat) (rows : List QueueRow) (r : QueueRow)
    (hmem : r ∈ rows) (hf : passesFilter r = true)
    (hp : parse_scheduled_at r.scheduled_at = none) :
    (r.row_index, [r.scheduled_at, r.text, r.media_path, "ERROR", r.posted_at, r.tweet_id,
        "invalid scheduled_at"]) ∈ (selectCandidates now rows).1 ∧
      ∀ k, (k, r) ∉ (selectCandidates now rows).2 := by
  refine ⟨selwrite_mem now r rows hmem hf hp, ?_⟩
  intro k hk
  rcases (cand_mem_iff now k r rows).mp hk with ⟨-, -, hparse, -⟩
  rw [hp] at hparse
  cases hparse

/-- Witness for C5: the spec's own example cell 2024-13-40 99:99. -/
theorem c5_invalid_scheduled_at_witness :
    (2, ["2024-13-40 99:99", "hello", "", "ERROR", "", "", "invalid scheduled_at"])
        ∈ (selectCandidates bigNow [rowBadSched]).1 ∧
      ∀ k, (k, rowBadSched) ∉ (selectCandidates bigNow [rowBadSched]).2 :=
  c5_invalid_scheduled_at bigNow [rowBadSched] rowBadSched (by decide) (by decide) (by decide)

/-- C9, confirmed: the selector strips whitespace when testing scheduled_at,
tweet_id and text but compares status exactly: a due row with blanks around
scheduled_at and text and a whitespace-only tweet_id is still selected,
while rows whose status is lower-case pending or carries a leading blank are
excluded even though every other field qualifies. -/
theorem c9_trim_and_exact_status :
    ((selectCandidates bigNow [rowWsFields]).2).map Prod.snd = [rowWsFields] ∧
      (selectCandidates bigNow [rowLowerStatus]).2 = [] ∧
      (selectCandidates bigNow [rowPaddedStatus]).2 = [] := by
  exact ⟨by decide, by decide, by decide⟩

/-- C3, confirmed: whenever processing of a candidate raises at any step,
the row is written back with status ERROR, error_message the exception text
truncated to 500 characters, and every other cell (scheduled_at, text,
media_path, and the previously read posted_at and tweet_id) exactly as
originally read; the ERROR line naming the row position is printed; and the
publish loop still processes every attempted candidate independently, so
one failure never prevents later candidates from being attempted. -/
theorem c3_failure_writeback (env : Env) (r : QueueRow) (e : String)
    (calls : List RemoteCall) (h : candidateOutcome env r = (Except.error e, calls)) :
    (processCandidate env r).write =
        (r.row_index,
          [r.scheduled_at, r.text, r.media_path, "ERROR", r.posted_at, r.tweet_id,
            e.take 500]) ∧
      (processCandidate env r).line = errorLine r.row_index (e.take 500) ∧
      (processCandidate env r).ok = false ∧
      ∀ (maxPosts : Int) (rows : List QueueRow),
        (runModel env maxPosts rows).pubWrites =
          (pySliceTo maxPosts (sortByKey (selectCandidates env.now rows).2)).map
            (fun c => (processCandidate env c.2).write) := by
  refine ⟨?_, ?_, ?_, ?_⟩
  · simp [processCandidate, h]
  · simp [processCandidate, h]
  · simp [processCandidate, h]
  · intro m rows
    simp [runModel, List.map_map, Function.comp]

/-- Witness for C3: a run whose tweet endpoint answers HTTP 500 writes the
row back unchanged except for status ERROR and the failure message. -/
theorem c3_failure_writeback_witness :
    (processCandidate envFail500 rowPending).write =
      (2, ["2024-01-01 09:00", "hello", "", "ERROR", "", "",
        ("tweet post failed: 500 boom").take 500]) :=
  (c3_failure_writeback envFail500 rowPending "tweet post failed: 500 boom"
      [RemoteCall.post "hello" none] rfl).1

/-- C4, confirmed: whenever a candidate's publish succeeds, the row is
written back with status POSTED, posted_at the now_jst_str() timestamp,
tweet_id the identifier returned by the publish call (necessarily
non-empty), and error_message cleared, and the POSTED line naming the row
position and the identifier is printed. -/
theorem c4_success_writeback (env : Env) (r : QueueRow) (tid : String)
    (calls : List RemoteCall) (h : candidateOutcome env r = (Except.ok tid, calls)) :
    tid ≠ "" ∧
      (processCandidate env r).write =
        (r.row_index,
          [r.scheduled_at, r.text, r.media_path, "POSTED", env.nowStr, tid, ""]) ∧
      (processCandidate env r).line = postedLine r.row_index tid ∧
      (processCandidate env r).ok = true := by
  refine ⟨candidateOutcome_ok_ne h, ?_, ?_, ?_⟩
  · simp [processCandidate, h]
  · simp [processCandidate, h]
  · simp [processCandidate, h]

/-- Witness for C4: in the all-success environment the due row is written
back as POSTED with the returned id 42 and a cleared error_message. -/
theorem c4_success_writeback_witness :
    (processCandidate envOk rowPending).write =
      (2, ["2024-01-01 09:00", "hello", "", "POSTED", "2024-06-01 12:00", "42", ""]) :=
  (c4_success_writeback envOk rowPending "42" [RemoteCall.post "hello" none] rfl).2.1

/-- C6, confirmed: a candidate whose text exceeds 280 characters fails
locally: no HTTP request at all is made for it, the outcome is the
text-too-long error, and the row is written back through the error path
with status ERROR. -/
theorem c6_oversized_text_local (env : Env) (r : QueueRow)
    (h : MAX_TWEET_LEN < r.text.length) :
    (candidateOutcome env r).2 = [] ∧
      (candidateOutcome env r).1 = Except.error (tooLongMsg r.text.length) ∧
      (processCandidate env r).write =
        (r.row_index,
          [r.scheduled_at, r.text, r.media_path, "ERROR", r.posted_at, r.tweet_id,
            (tooLongMsg r.text.length).take 500]) := by
  have hco : candidateOutcome env r = (Except.error (tooLongMsg r.text.length), []) := by
    rw [candidateOutcome]
    dsimp only
    rw [if_pos h]
  exact ⟨by rw [hco], by rw [hco], by simp [processCandidate, hco]⟩

/-- Witness for C6: a 281-character text is rejected without any remote
call. -/
theorem c6_oversized_text_local_witness :
    (candidateOutcome envOk rowLongText).2 = [] :=
  (c6_oversized_text_local envOk rowLongText
    (by set_option maxRecDepth 4000 in decide)).1

/-- C7, code bug: when the media-upload response succeeds with a JSON body
holding the media identifier under neither expected key, upload_media does
not raise: js.get("media_id_string") or str(js.get("media_id")) evaluates
to the truthy four-character string "None", which passes the missing-id
check, so the candidate goes on to call the publish endpoint with the bogus
media identifier "None" — contradicting the claimed (and clearly intended,
per the missing-id error message in the source) local failure. -/
theorem c7_missing_media_id_bug :
    upload_media envMissingId "pic.jpg" =
        (Except.ok "None", [RemoteCall.upload "pic.jpg"]) ∧
      candidateOutcome envMissingId rowWithMedia =
        (Except.ok "42",
          [RemoteCall.upload "pic.jpg", RemoteCall.post "hello" (some "None")]) := by
  exact ⟨rfl, rfl⟩

/-- C8, corrected: no 6-column schema variant exists — the guard rejects the
6-column layout (HEADERS without media_path) unconditionally, there being no
configuration under which it is accepted, refuting the claim that the
component supports two configurable schema variants. -/
theorem c8_counterexample_six_columns :
    HEADERS6.length = 6 ∧ "media_path" ∉ HEADERS6 ∧
      ensure_header (some HEADERS6) = Except.error (mismatchMsg (some HEADERS6)) := by
  exact ⟨rfl, by decide, rfl⟩

/-- C8, amended: the component supports a single fixed 7-column layout
including media_path; the schema guard compares the store's header row
cell-for-cell to that layout, accepting exactly it, and on any difference
(including a length difference, or an absent header row) the whole run
aborts with the descriptive error naming expected and actual before any
candidate is processed. -/
theorem c8_schema_guard (hdr : Option (List String)) :
    HEADERS.length = 7 ∧ "media_path" ∈ HEADERS ∧
      (ensure_header hdr = Except.ok () ↔ hdr = some HEADERS) ∧
      (∀ (env : Env) (m : Int) (rows : List QueueRow),
        hdr ≠ some HEADERS → runFull env m hdr rows = Except.error (mismatchMsg hdr)) := by
  refine ⟨rfl, by decide, ?_, ?_⟩
  · constructor
    · intro h
      cases hdr with
      | none => simp [ensure_header] at h
      | some hh =>
        by_cases he : hh = HEADERS
        · rw [he]
        · simp [ensure_header, he] at h
    · rintro rfl
      simp [ensure_header]
  · intro env m rows hne
    cases hdr with
    | none => simp [runFull, ensure_header]
    | some hh =>
      have he : hh ≠ HEADERS := by
        intro h2
        exact hne (by rw [h2])
      simp [runFull, ensure_header, he]

/-- Witness for C8: a run handed the 6-column header aborts with the
mismatch error and performs no processing. -/
theorem c8_schema_guard_witness :
    runFull envOk 1 (some HEADERS6) [] = Except.error (mismatchMsg (some HEADERS6)) :=
  (c8_schema_guard (some HEADERS6)).2.2.2 envOk 1 [] (by decide)

/-- C2, confirmed: the attempted candidates are the sorted candidate list
truncated by the Python slice: the sort is ascending in the parsed
scheduled-time key; it is stable (for every key value, the candidates with
that key appear in the same order as in the selection list, which itself
preserves store order, being an order-preserving subsequence of the loaded
rows); the default cap with the variable unset is 1; a non-negative cap
bounds the number of attempted candidates; and the publish loop writes back
exactly the attempted candidates, in order — rows beyond the cap are left
untouched. -/
theorem c2_sorted_stable_capped (env : Env) (rows : List QueueRow) :
    List.Pairwise (fun a b => a.1 ≤ b.1)
        (sortByKey (selectCandidates env.now rows).2) ∧
      (∀ k : Nat,
        (sortByKey (selectCandidates env.now rows).2).filter (fun p => p.1 == k) =
          ((selectCandidates env.now rows).2).filter (fun p => p.1 == k)) ∧
      List.Sublist (((selectCandidates env.now rows).2).map Prod.snd) rows ∧
      effectiveMaxPosts none = 1 ∧
      (∀ m : Int, 0 ≤ m →
        ((pySliceTo m (sortByKey (selectCandidates env.now rows).2)).length : Int) ≤ m) ∧
      (∀ m : Int,
        (runModel env m rows).pubWrites =
          (pySliceTo m (sortByKey (selectCandidates env.now rows).2)).map
            (fun c => (processCandidate env c.2).write)) := by
  refine ⟨sortByKey_pairwise _, fun k => sortByKey_filter _ k, cands_sublist _ _, rfl, ?_, ?_⟩
  · intro m hm
    have h1 : (pySliceTo m (sortByKey (selectCandidates env.now rows).2)).length ≤ m.toNat := by
      rw [pySliceTo, if_pos hm]
      exact (List.length_take _ _).le.trans (min_le_left _ _)
    calc ((pySliceTo m (sortByKey (selectCandidates env.now rows).2)).length : Int)
        ≤ (m.toNat : Int) := by exact_mod_cast h1
      _ = m := Int.toNat_of_nonneg hm
  · intro m
    simp [runModel, List.map_map, Function.comp]

/-- Witness for C2: with two due rows stored in the order 09:30, 09:00 the
sorted candidate rows come out 09:00 first, and a cap of 1 bounds the
attempted list to one candidate. -/
theorem c2_sorted_stable_capped_witness :
    ((pySliceTo 1 (sortByKey (selectCandidates envOk.now [row0930, rowPending]).2)).length :
        Int) ≤ 1 ∧
      (sortByKey (selectCandidates envOk.now [row0930, rowPending]).2).map Prod.snd =
        [rowPending, row0930] :=
  ⟨(c2_sorted_stable_capped envOk [row0930, rowPending]).2.2.2.2.1 1 (by decide), by decide⟩

/-- C10, confirmed: a cap of 0 attempts no candidate — the publish loop
performs no row write, no HTTP request and prints nothing; a negative cap
does not bound the list but removes that many candidates from the end of
the sorted order (-1 keeps all but the last), so with at least three due
candidates a cap of -1 attempts strictly more candidates than a cap of 1. -/
theorem c10_zero_and_negative_cap (env : Env) (rows : List QueueRow) :
    (runModel env 0 rows).pubWrites = [] ∧
      (runModel env 0 rows).calls = [] ∧
      (runModel env 0 rows).output = [] ∧
      (∀ l : List (Nat × QueueRow), pySliceTo (-1) l = l.dropLast) ∧
      (∀ (m : Int) (l : List (Nat × QueueRow)), m < 0 →
        (pySliceTo m l).length = l.length - (-m).toNat) ∧
      (3 ≤ (sortByKey (selectCandidates env.now rows).2).length →
        (runModel env 1 rows).pubWrites.length <
          (runModel env (-1) rows).pubWrites.length) := by
  refine ⟨?_, ?_, ?_, ?_, ?_, ?_⟩
  · simp [runModel, pySliceTo]
  · simp [runModel, pySliceTo]
  · simp [runModel, pySliceTo]
  · intro l
    rw [pySliceTo, if_neg (by omega)]
    rw [List.dropLast_eq_take]
    rfl
  · intro m l hm
    rw [pySliceTo, if_neg (by omega), List.length_take]
    omega
  · intro h3
    have h1 : (runModel env 1 rows).pubWrites.length =
        (pySliceTo 1 (sortByKey (selectCandidates env.now rows).2)).length := by
      simp [runModel]
    have h2 : (runModel env (-1) rows).pubWrites.length =
        (pySliceTo (-1) (sortByKey (selectCandidates env.now rows).2)).length := by
      simp [runModel]
    rw [h1, h2, pySliceTo, pySliceTo, if_pos (by omega), if_neg (by omega),
      List.length_take, List.length_take]
    omega

/-- Witness for C10: with three due rows a cap of -1 attempts two
candidates while a cap of 1 attempts one, and a negative slice bound drops
from the end. -/
theorem c10_zero_and_negative_cap_witness :
    (runModel envOk 1 [rowPending, row0930, row1000]).pubWrites.length <
        (runModel envOk (-1) [rowPending, row0930, row1000]).pubWrites.length ∧
      (pySliceTo (-2) (sortByKey
          (selectCandidates envOk.now [rowPending, row0930, row1000]).2)).length =
        (sortByKey (selectCandidates envOk.now [rowPending, row0930, row1000]).2).length - 2 :=
  ⟨(c10_zero_and_negative_cap envOk [rowPending, row0930, row1000]).2.2.2.2.2 (by decide),
    (c10_zero_and_negative_cap envOk [rowPending, row0930, row1000]).2.2.2.2.1 (-2) _
      (by decide)⟩
